import Mathlib

/-!
# Verification of the voice-dialogue backend core

A shallow embedding, in Lean, of the concurrency-and-failure core of the
voice-dialogue backend:

* `ConversationCache` (`src/backend/src/services/llm_service.py`):
  bounded, TTL-expiring per-dialogue message history;
* `LLMService.generate_response` (same file): input validation and the
  classified OpenAI call;
* `OrchestratorService.process_dialogue` and `get_status`
  (`src/backend/src/services/orchestrator_service.py`): the
  STT → LLM → TTS pipeline with admission control and the error taxonomy;
* `ConnectionManager` (`src/backend/src/lib/websocket_manager.py`):
  session registry, heartbeat tasks, message sending.

Modelling conventions:

* Python `dict`s become insertion-ordered association lists
  (`List (String × _)`); `dict` keys are unique, which appears as
  `Nodup` well-formedness hypotheses where needed.
* Python `datetime` timestamps become `Int` instants; each operation that
  calls `datetime.now()` receives the current instant `now` as an argument
  (the source may read the clock more than once inside one operation; the
  reads are microseconds apart and the difference is not observable in any
  property below, so one instant per operation is used).
* Durations (`timedelta`, TTLs) are nonnegative, modelled as `Nat`;
  audio durations (Python floats compared against configured bounds)
  are modelled as `Rat` — only their ordering is ever used.
* Python exceptions become the `PyExc` sum type; `try/except T` clauses
  become matches on the corresponding constructor; an exception that no
  clause catches is propagated as a `pythonRaise` outcome.
* `await` points have no observable interleaving in the properties below;
  each collaborator call is modelled by an oracle outcome supplied in the
  environment (`PipelineEnv`).
* Wall-clock stage timings (`time.time()` differences) and the WAV
  container encoding are outside the model: no claim observes them, and
  the spec places waveform encoding out of scope.
-/

namespace VoiceBackend

/-! ## Python primitives -/

/-- A Python exception value, as far as the backend distinguishes them:
`ValueError`, `RuntimeError`, or any other `Exception`, each carrying its
`str(e)` message. -/
inductive PyExc where
  | valueError (msg : String)
  | runtimeError (msg : String)
  | otherExc (msg : String)
deriving DecidableEq, Repr

/-- `str(e)` of an exception. -/
def PyExc.msg : PyExc → String
  | .valueError m => m
  | .runtimeError m => m
  | .otherExc m => m

/-- Python `str.strip()`: remove leading and trailing whitespace. -/
def pyStrip (s : String) : String :=
  ⟨((s.data.dropWhile Char.isWhitespace).reverse.dropWhile Char.isWhitespace).reverse⟩

/-- Python `str.lower()` (the file-extension allow-list is ASCII, where
`Char.toLower` and Python agree). -/
def pyLower (s : String) : String :=
  ⟨s.data.map Char.toLower⟩

/-- Python `needle in haystack` on strings: substring containment. -/
def strContains (haystack needle : String) : Bool :=
  decide (needle.data <:+: haystack.data)

/-- `pathlib.PurePosixPath(filename).suffix`: the extension (with leading
dot) of the last path component, empty when the name has no dot, starts
with its only dot, or ends with it. -/
def pySuffix (filename : String) : String :=
  let rest := filename.data.reverse.dropWhile (· = '/')
  let name := (rest.takeWhile (· ≠ '/')).reverse
  if '.' ∈ name then
    let i := name.length - 1 - (name.reverse.indexOf '.')
    if 0 < i ∧ i + 1 < name.length then ⟨name.drop i⟩ else ""
  else ""

/-! ## Conversation cache (`ConversationCache`, llm_service.py) -/

/-- `llm_service.Conversation`: one dialogue's message history.
Messages are `(role, content)` pairs. -/
structure Conversation where
  id : String
  messages : List (String × String)
  createdAt : Int
  updatedAt : Int
deriving DecidableEq, Repr

/-- `llm_service.ConversationCache`: configuration plus the
insertion-ordered `dict` of conversations. -/
structure ConversationCache where
  maxMessages : Nat
  maxConversations : Nat
  ttl : Nat
  entries : List (String × Conversation)
deriving DecidableEq, Repr

/-- A cache entry is expired when `now − updated_at > ttl`
(`ConversationCache._cleanup_expired`'s test). -/
def entryExpired (ttl : Nat) (now : Int) (kv : String × Conversation) : Bool :=
  decide (now - kv.2.updatedAt > (ttl : Int))

/-- `ConversationCache._cleanup_expired`: drop every expired entry,
keeping the rest in order. -/
def cleanupExpired (c : ConversationCache) (now : Int) : ConversationCache :=
  { c with entries := c.entries.filter (fun kv => ! entryExpired c.ttl now kv) }

/-- The ascending `updated_at` comparison used by
`ConversationCache._evict_oldest_if_needed`'s `sorted(..., key=...)`. -/
def byUpdatedAt (a b : String × Conversation) : Bool :=
  decide (a.2.updatedAt ≤ b.2.updatedAt)

/-- `ConversationCache._evict_oldest_if_needed`: when at or above
capacity, sort by `updated_at` and delete the oldest
`len − max_conversations + 1` entries by key. -/
def evictOldestIfNeeded (c : ConversationCache) : ConversationCache :=
  if c.entries.length ≥ c.maxConversations then
    let sortedConvs := c.entries.mergeSort byUpdatedAt
    let toEvict := c.entries.length - c.maxConversations + 1
    let victims := (sortedConvs.take toEvict).map Prod.fst
    { c with entries := c.entries.filter (fun kv => ! victims.contains kv.1) }
  else c

/-- `ConversationCache.get_or_create`: lazy expiry, then return the
existing record or (after capacity eviction) insert a fresh empty one. -/
def getOrCreate (c : ConversationCache) (now : Int) (id : String) :
    Conversation × ConversationCache :=
  let c := cleanupExpired c now
  match c.entries.lookup id with
  | some conv => (conv, c)
  | none =>
      let c := evictOldestIfNeeded c
      let conv : Conversation := ⟨id, [], now, now⟩
      (conv, { c with entries := c.entries ++ [(id, conv)] })

/-- Replace the value stored at key `k` in place (Python mutates the
`Conversation` object held by the `dict`, so its position is unchanged). -/
def assocUpdate (l : List (String × Conversation)) (k : String) (v : Conversation) :
    List (String × Conversation) :=
  l.map (fun kv => if kv.1 == k then (k, v) else kv)

/-- `ConversationCache.add_message`: `get_or_create`, append the message,
refresh `updated_at`, and trim the oldest messages beyond
`max_messages`. -/
def addMessage (c : ConversationCache) (now : Int) (id role content : String) :
    Conversation × ConversationCache :=
  let (conv, c) := getOrCreate c now id
  let msgs := conv.messages ++ [(role, content)]
  let msgs := if msgs.length > c.maxMessages then
      msgs.drop (msgs.length - c.maxMessages)
    else msgs
  let conv := { conv with messages := msgs, updatedAt := now }
  (conv, { c with entries := assocUpdate c.entries id conv })

/-- `ConversationCache.clear`: remove the conversation if present. -/
def clearConversation (c : ConversationCache) (id : String) :
    Bool × ConversationCache :=
  match c.entries.lookup id with
  | some _ => (true, { c with entries := c.entries.eraseP (fun kv => kv.1 == id) })
  | none => (false, c)

/-- `ConversationCache.count`: lazy expiry, then the number of live
conversations (the cleanup mutates the cache, so it is returned too). -/
def cacheCount (c : ConversationCache) (now : Int) : Nat × ConversationCache :=
  let c := cleanupExpired c now
  (c.entries.length, c)

/-- Folding a sequence of `add_message` calls for one conversation id,
all at instant `now`. -/
def addMessages (c : ConversationCache) (now : Int) (id : String) :
    List (String × String) → ConversationCache
  | [] => c
  | m :: ms => addMessages (addMessage c now id m.1 m.2).2 now id ms

/-! ## LLM service (`LLMService`, llm_service.py) -/

/-- `llm_service.MAX_MESSAGE_LENGTH`. -/
def MAX_MESSAGE_LENGTH : Nat := 4000

/-- Outcome of one OpenAI chat-completions call, classified the way
`LLMService._call_openai`'s `except` clauses classify the SDK's
exception types. -/
inductive OpenAIOutcome where
  | success (text : String)
  | authError (detail : String)
  | rateLimit (detail : String)
  | connectionError (detail : String)
  | apiStatus (detail : String)
  | unexpected (detail : String)
deriving DecidableEq, Repr

/-- `LLMService._call_openai`: a missing client or any SDK failure is
re-raised as a `RuntimeError` carrying the corresponding
`llm.ErrorCode` value as its message. -/
def callOpenai (clientInitialized : Bool) (o : OpenAIOutcome) : Except PyExc String :=
  if !clientInitialized then .error (.runtimeError "LLM_NOT_CONFIGURED")
  else
    match o with
    | .success t => .ok t
    | .authError _ => .error (.runtimeError "LLM_NOT_CONFIGURED")
    | .rateLimit _ => .error (.runtimeError "LLM_RATE_LIMITED")
    | .connectionError _ => .error (.runtimeError "LLM_CONNECTION_ERROR")
    | .apiStatus _ => .error (.runtimeError "LLM_API_ERROR")
    | .unexpected _ => .error (.runtimeError "LLM_PROCESSING_ERROR")

/-- The `LLMService` state visible to the orchestrator: configuration
flags and the conversation cache. -/
structure LLMState where
  apiConfigured : Bool
  clientInitialized : Bool
  cache : ConversationCache
deriving DecidableEq, Repr

/-- `LLMService.generate_response`: input validation (`ValueError` for an
empty or over-long message), conversation-cache bookkeeping, and the
classified API call (`RuntimeError`s). -/
def generateResponse (st : LLMState) (apiOutcome : OpenAIOutcome) (now : Int)
    (message conversationId : String) : Except PyExc (String × LLMState) :=
  if !st.apiConfigured then .error (.runtimeError "LLM_NOT_CONFIGURED")
  else if message == "" || pyStrip message == "" then .error (.valueError "EMPTY_MESSAGE")
  else if message.length > MAX_MESSAGE_LENGTH then .error (.valueError "MESSAGE_TOO_LONG")
  else
    let cache1 := (addMessage st.cache now conversationId "user" message).2
    match callOpenai st.clientInitialized apiOutcome with
    | .error e => .error e
    | .ok responseText =>
        let cache2 := (addMessage cache1 now conversationId "assistant" responseText).2
        .ok (responseText, { st with cache := cache2 })

/-! ## Orchestrator (`OrchestratorService`, orchestrator_service.py) -/

/-- `models.orchestrator.OrchestratorErrorCode`. -/
inductive OrchestratorErrorCode where
  | INVALID_AUDIO_FORMAT
  | AUDIO_TOO_SHORT
  | AUDIO_TOO_LONG
  | SPEECH_RECOGNITION_FAILED
  | STT_SERVICE_UNAVAILABLE
  | LLM_SERVICE_UNAVAILABLE
  | LLM_RATE_LIMITED
  | LLM_CONNECTION_ERROR
  | TTS_SERVICE_UNAVAILABLE
  | SYNTHESIS_FAILED
  | PROCESSING_TIMEOUT
  | TOO_MANY_REQUESTS
deriving DecidableEq, Repr

/-- `orchestrator_service.OrchestratorError` as a value: code, message,
optional retry hint and structured details (numeric interpolation inside
the human-readable messages of the duration errors is elided). -/
structure OrchError where
  errorCode : OrchestratorErrorCode
  message : String
  retryAfter : Option Nat := none
  details : List (String × Rat) := []
deriving DecidableEq, Repr

/-- `orchestrator_service.SUPPORTED_FORMATS`. -/
def SUPPORTED_FORMATS : List String := [".wav", ".mp3", ".m4a", ".webm", ".flac", ".ogg"]

/-- `OrchestratorService.validate_audio_format`: non-empty payload and an
allow-listed extension. -/
def validateAudioFormat (filename : String) (audioData : List Nat) :
    Bool × Option String :=
  if audioData = [] then (false, some "INVALID_AUDIO_FORMAT")
  else
    let ext := pyLower (pySuffix filename)
    if ext ∈ SUPPORTED_FORMATS then (true, none)
    else (false, some "INVALID_AUDIO_FORMAT")

/-- The orchestrator's configured duration bounds
(`ORCHESTRATOR_MIN_AUDIO_DURATION`, `ORCHESTRATOR_MAX_AUDIO_DURATION`). -/
structure OrchestratorConfig where
  minAudioDuration : Rat
  maxAudioDuration : Rat
deriving Repr

/-- `OrchestratorService._validate_audio_duration`: `none` when the
duration is within bounds, otherwise the raised `OrchestratorError`. -/
def validateAudioDuration (cfg : OrchestratorConfig) (duration : Rat) :
    Option OrchError :=
  if duration < cfg.minAudioDuration then
    some ⟨.AUDIO_TOO_SHORT, "Audio duration is too short", none,
      [("duration", duration), ("min_duration", cfg.minAudioDuration)]⟩
  else if duration > cfg.maxAudioDuration then
    some ⟨.AUDIO_TOO_LONG, "Audio duration exceeds limit", none,
      [("duration", duration), ("max_duration", cfg.maxAudioDuration)]⟩
  else none

/-- `stt_service.TranscriptionResponse`, at the interface the
orchestrator consumes: text and measured duration. -/
structure SttResult where
  text : String
  durationSeconds : Rat
deriving DecidableEq, Repr

/-- `models.orchestrator.ProcessingMetadata`, minus the wall-clock timing
fields (unobservable in this model). -/
structure PipelineMetadata where
  inputDuration : Rat
  inputTextLength : Nat
  outputTextLength : Nat
  outputDuration : Rat
  sampleRate : Nat
deriving DecidableEq, Repr

/-- What one `process_dialogue` call surfaces to its caller: a success
payload, an `OrchestratorError`, or a raw Python exception that no
handler in `process_dialogue` catches. -/
inductive RunResult where
  | ok (sampleRate : Nat) (audio : List Int) (meta : PipelineMetadata)
  | orchError (e : OrchError)
  | pythonRaise (e : PyExc)
deriving DecidableEq, Repr

/-- The per-call environment of `process_dialogue`: collaborator
readiness, each collaborator call's outcome, admission-pool behaviour,
the generated conversation id and the clock. -/
structure PipelineEnv where
  sttModelLoaded : Bool
  ttsIsReady : Bool
  llm : LLMState
  llmOutcome : OpenAIOutcome
  sttOutcome : Except PyExc SttResult
  ttsOutcome : Except PyExc (Nat × List Int)
  semaphoreAcquireOk : Bool
  conversationId : String
  now : Int
deriving Repr

/-- `tts_service.TTSService.get_audio_length_seconds`:
`len(audio) / sample_rate`. -/
def audioLengthSeconds (sampleRate : Nat) (audio : List Int) : Rat :=
  (audio.length : Rat) / (sampleRate : Rat)

/-- The protected region of `process_dialogue` (the body of the
`try: ... finally: release()` block): the STT → LLM → TTS stage sequence
with each stage's `except` clauses. Returns the surfaced result and the
LLM service state left behind. -/
def pipelineBody (cfg : OrchestratorConfig) (env : PipelineEnv) :
    RunResult × LLMState :=
  match env.sttOutcome with
  | .error e =>
      (.orchError ⟨.STT_SERVICE_UNAVAILABLE,
        "Speech recognition failed: " ++ e.msg, none, []⟩, env.llm)
  | .ok sttResult =>
    let recognizedText := pyStrip sttResult.text
    if recognizedText == "" then
      (.orchError ⟨.SPEECH_RECOGNITION_FAILED,
        "Could not recognize speech in the audio", none, []⟩, env.llm)
    else
      match validateAudioDuration cfg sttResult.durationSeconds with
      | some err => (.orchError err, env.llm)
      | none =>
        match generateResponse env.llm env.llmOutcome env.now recognizedText
            env.conversationId with
        | .error (.runtimeError m) =>
            if strContains m "LLM_RATE_LIMITED" then
              (.orchError ⟨.LLM_RATE_LIMITED,
                "LLM API rate limit exceeded", some 60, []⟩, env.llm)
            else if strContains m "LLM_CONNECTION_ERROR" then
              (.orchError ⟨.LLM_CONNECTION_ERROR,
                "LLM API connection failed", none, []⟩, env.llm)
            else
              (.orchError ⟨.LLM_SERVICE_UNAVAILABLE,
                "LLM processing failed: " ++ m, none, []⟩, env.llm)
        | .error e => (.pythonRaise e, env.llm)
        | .ok (responseText, llm1) =>
          match env.ttsOutcome with
          | .error (.valueError m) =>
              (.orchError ⟨.SYNTHESIS_FAILED,
                "Speech synthesis failed: " ++ m, none, []⟩, llm1)
          | .error e =>
              (.orchError ⟨.TTS_SERVICE_UNAVAILABLE,
                "TTS processing failed: " ++ e.msg, none, []⟩, llm1)
          | .ok (sampleRate, audio) =>
              (.ok sampleRate audio
                ⟨sttResult.durationSeconds, recognizedText.length,
                  responseText.length, audioLengthSeconds sampleRate audio,
                  sampleRate⟩, llm1)

/-- The complete observable outcome of one `process_dialogue` call,
including the admission-pool traffic it generated. -/
structure RunOutcome where
  result : RunResult
  semAcquired : Nat
  semReleased : Nat
deriving DecidableEq, Repr

/-- `OrchestratorService.process_dialogue`: format validation, the three
readiness checks, admission (semaphore acquisition under a grace
period), then the staged body inside `try/finally` — the `finally`
releases the permit whatever the body's outcome, including an uncaught
Python exception. -/
def processDialogue (cfg : OrchestratorConfig) (env : PipelineEnv)
    (audioData : List Nat) (filename : String) : RunOutcome :=
  if (validateAudioFormat filename audioData).1 = false then
    { result := .orchError ⟨.INVALID_AUDIO_FORMAT,
        "Unsupported audio format. Supported: FLAC, M4A, MP3, OGG, WAV, WEBM",
        none, []⟩,
      semAcquired := 0, semReleased := 0 }
  else if !env.sttModelLoaded then
    { result := .orchError ⟨.STT_SERVICE_UNAVAILABLE,
        "STT service is not available", none, []⟩,
      semAcquired := 0, semReleased := 0 }
  else if !env.llm.apiConfigured then
    { result := .orchError ⟨.LLM_SERVICE_UNAVAILABLE,
        "LLM service is not configured", none, []⟩,
      semAcquired := 0, semReleased := 0 }
  else if !env.ttsIsReady then
    { result := .orchError ⟨.TTS_SERVICE_UNAVAILABLE,
        "TTS model is not loaded", none, []⟩,
      semAcquired := 0, semReleased := 0 }
  else if !env.semaphoreAcquireOk then
    { result := .orchError ⟨.TOO_MANY_REQUESTS,
        "Too many concurrent requests", some 5, []⟩,
      semAcquired := 0, semReleased := 0 }
  else
    { result := (pipelineBody cfg env).1,
      semAcquired := 1, semReleased := 1 }

/-! ## Status aggregation (`OrchestratorService.get_status`) -/

/-- `models.orchestrator.HealthStatus`. -/
inductive HealthStatus where
  | healthy
  | degraded
  | unhealthy
deriving DecidableEq, Repr

/-- The overall-status determination at the end of
`OrchestratorService.get_status`: all healthy → healthy; any
unhealthy → unhealthy; otherwise degraded. The three inputs are the
already-mapped per-subsystem health values (STT, LLM, TTS). -/
def overallStatus (stt llm tts : HealthStatus) : HealthStatus :=
  let allStatuses := [stt, llm, tts]
  if allStatuses.all (fun s => s == .healthy) then .healthy
  else if allStatuses.any (fun s => s == .unhealthy) then .unhealthy
  else .degraded

/-- The aggregation rule as the specification words it, for comparison
with `overallStatus`: `Healthy` exactly when all three are `Healthy`;
`Unhealthy` whenever at least one is `Unhealthy`; `Degraded`
otherwise. -/
def overallStatusSpec (stt llm tts : HealthStatus) : HealthStatus :=
  if stt = .healthy ∧ llm = .healthy ∧ tts = .healthy then .healthy
  else if stt = .unhealthy ∨ llm = .unhealthy ∨ tts = .unhealthy then .unhealthy
  else .degraded

/-! ## Streaming session manager (`ConnectionManager`, websocket_manager.py) -/

/-- `websocket_manager.ConnectionManager` state: the two `dict`s mapping
session id to the live transport handle and to the heartbeat-task
handle. Handles are opaque and modelled as `Nat`. -/
structure ConnectionManager where
  connections : List (String × Nat)
  pingTasks : List (String × Nat)
deriving DecidableEq, Repr

/-- Registry well-formedness: Python `dict` keys are unique. -/
def ConnectionManager.WF (m : ConnectionManager) : Prop :=
  (m.connections.map Prod.fst).Nodup ∧ (m.pingTasks.map Prod.fst).Nodup

instance (m : ConnectionManager) : Decidable m.WF := by
  unfold ConnectionManager.WF; infer_instance

/-- `ConnectionManager.disconnect`: cancel-and-await the session's
heartbeat task if one is running and drop it from the task map, then
drop the session from the connection registry. Returns the new state and
the list of task handles this call cancelled. -/
def disconnect (m : ConnectionManager) (sessionId : String) :
    ConnectionManager × List Nat :=
  let (pingTasks, cancelled) :=
    match m.pingTasks.lookup sessionId with
    | some task =>
        (m.pingTasks.eraseP (fun kv : String × Nat => kv.1 == sessionId), [task])
    | none => (m.pingTasks, [])
  let connections :=
    if (m.connections.lookup sessionId).isSome then
      m.connections.eraseP (fun kv : String × Nat => kv.1 == sessionId)
    else m.connections
  (⟨connections, pingTasks⟩, cancelled)

/-- The observable outcome of `ConnectionManager.send_message`: its
return value, the state it leaves, and the transport writes it
attempted, as `(websocket handle, payload)` pairs. -/
structure SendOutcome where
  sent : Bool
  state : ConnectionManager
  writes : List (Nat × String)
deriving DecidableEq, Repr

/-- `ConnectionManager.send_message`: unknown session → `False` with no
write and no state change; otherwise one `send_json` attempt, and on a
transport failure the session is torn down via `disconnect` and `False`
is returned. `transportOk` is the oracle for whether the write
succeeds. -/
def sendMessage (m : ConnectionManager) (sessionId : String) (payload : String)
    (transportOk : Bool) : SendOutcome :=
  match m.connections.lookup sessionId with
  | none => ⟨false, m, []⟩
  | some ws =>
      if transportOk then ⟨true, m, [(ws, payload)]⟩
      else ⟨false, (disconnect m sessionId).1, [(ws, payload)]⟩

/-! ## Concrete instances for counterexamples and witnesses -/

/-- A transcription longer than `MAX_MESSAGE_LENGTH`: 4001 characters. -/
def overLongText : String := ⟨List.replicate 4001 'a'⟩

/-- An `LLMService` that is fully configured with an empty cache. -/
def baseLLM : LLMState :=
  { apiConfigured := true, clientInitialized := true,
    cache := ⟨20, 1000, 60, []⟩ }

/-- Default duration bounds used in concrete runs (only their ordering
relative to the sample durations matters). -/
def testConfig : OrchestratorConfig := ⟨1, 600⟩

/-- A run environment in which every collaborator succeeds. -/
def baseEnv : PipelineEnv :=
  { sttModelLoaded := true, ttsIsReady := true, llm := baseLLM,
    llmOutcome := .success "ok", sttOutcome := .ok ⟨"hello", 5⟩,
    ttsOutcome := .ok (22050, [0, 1]), semaphoreAcquireOk := true,
    conversationId := "cid", now := 0 }

/-- A run whose transcription exceeds the generator's message limit. -/
def envOverLong : PipelineEnv := { baseEnv with sttOutcome := .ok ⟨overLongText, 5⟩ }

/-- A run whose synthesizer raises a generic (non-`ValueError`) fault. -/
def envTtsCrash : PipelineEnv :=
  { baseEnv with ttsOutcome := .error (.otherExc "model crashed") }

/-- A run whose synthesizer rejects the generated content
(`ValueError`). -/
def envTtsReject : PipelineEnv :=
  { baseEnv with ttsOutcome := .error (.valueError "Text is empty or whitespace only") }

/-- A cache configured with `max_conversations = 0`. -/
def capacityZeroCache : ConversationCache := ⟨20, 0, 60, []⟩

/-- A cache at capacity 2 whose least-recently-updated conversation is
`"b"`. -/
def fullCache : ConversationCache :=
  ⟨20, 2, 60, [("a", ⟨"a", [], 1, 1⟩), ("b", ⟨"b", [], 0, 0⟩)]⟩

/-- A cache holding one conversation last updated at instant 0. -/
def staleCache : ConversationCache :=
  ⟨20, 1000, 60, [("x", ⟨"x", [("user", "hi")], 0, 0⟩)]⟩

/-- A connection manager with one registered session that has a running
heartbeat task. -/
def sampleManager : ConnectionManager := ⟨[("s1", 11)], [("s1", 21)]⟩

/-- The `LLMService` state left by one successful generation for
conversation `"cid"` with input `"hello"` and reply `"ok"` at instant
0, starting from `baseLLM`. -/
def llmAfterHello : LLMState :=
  { apiConfigured := true, clientInitialized := true,
    cache := ⟨20, 1000, 60,
      [("cid", ⟨"cid", [("user", "hello"), ("assistant", "ok")], 0, 0⟩)]⟩ }

/-! ## Helper lemmas: association lists -/

theorem lookup_mem {α : Type _} {β : Type _} [BEq α] [LawfulBEq α]
    {l : List (α × β)} {k : α} {v : β} (h : l.lookup k = some v) :
    (k, v) ∈ l := by
  induction l with
  | nil => simp [List.lookup] at h
  | cons kv t ih =>
      obtain ⟨a, b⟩ := kv
      rw [List.lookup_cons] at h
      by_cases hk : k == a
      · simp only [hk] at h
        obtain rfl : b = v := by simpa using h
        obtain rfl : k = a := by simpa using hk
        exact List.mem_cons_self _ _
      · simp only [Bool.not_eq_true] at hk
        simp only [hk] at h
        exact List.mem_cons_of_mem _ (ih h)

theorem lookup_eq_none_iff {α : Type _} {β : Type _} [BEq α] [LawfulBEq α]
    {l : List (α × β)} {k : α} :
    l.lookup k = none ↔ k ∉ l.map Prod.fst := by
  induction l with
  | nil => simp [List.lookup]
  | cons kv t ih =>
      obtain ⟨a, b⟩ := kv
      rw [List.lookup_cons]
      by_cases hk : k == a
      · obtain rfl : k = a := by simpa using hk
        simp [hk]
      · have hne : k ≠ a := by simpa using hk
        simp only [Bool.not_eq_true] at hk
        simp [hk, hne, ih]

theorem lookup_append_left_none {α : Type _} {β : Type _} [BEq α] [LawfulBEq α]
    {l₁ l₂ : List (α × β)} {k : α} (h : l₁.lookup k = none) :
    (l₁ ++ l₂).lookup k = l₂.lookup k := by
  induction l₁ with
  | nil => simp
  | cons kv t ih =>
      obtain ⟨a, b⟩ := kv
      rw [List.lookup_cons] at h
      rw [List.cons_append, List.lookup_cons]
      by_cases hk : k == a
      · simp [hk] at h
      · simp only [Bool.not_eq_true] at hk
        simp only [hk] at h ⊢
        exact ih h

theorem eq_of_mem_of_keysNodup {α : Type _} {β : Type _}
    {l : List (α × β)} {x y : α × β}
    (hnd : (l.map Prod.fst).Nodup) (hx : x ∈ l) (hy : y ∈ l)
    (hk : x.1 = y.1) : x = y := by
  induction l with
  | nil => cases hx
  | cons c t ih =>
      rw [List.map_cons, List.nodup_cons] at hnd
      rcases List.mem_cons.mp hx with rfl | hx'
      · rcases List.mem_cons.mp hy with rfl | hy'
        · rfl
        · exact absurd (hk ▸ List.mem_map_of_mem Prod.fst hy') hnd.1
      · rcases List.mem_cons.mp hy with rfl | hy'
        · exact absurd (hk ▸ List.mem_map_of_mem Prod.fst hx') hnd.1
        · exact ih hnd.2 hx' hy'

theorem length_filter_out_key {α : Type _} {β : Type _} [BEq α] [LawfulBEq α]
    {l : List (α × β)} {v : α × β}
    (hnd : (l.map Prod.fst).Nodup) (hv : v ∈ l) :
    (l.filter (fun kv => ! (kv.1 == v.1))).length = l.length - 1 := by
  induction l with
  | nil => cases hv
  | cons c t ih =>
      rw [List.map_cons, List.nodup_cons] at hnd
      rcases List.mem_cons.mp hv with rfl | hv'
      · have hkeep : t.filter (fun kv => ! (kv.1 == v.1)) = t := by
          apply List.filter_eq_self.mpr
          intro kv hkv
          have : kv.1 ≠ v.1 := by
            intro he
            exact hnd.1 (he ▸ List.mem_map_of_mem Prod.fst hkv)
          simpa using this
        simp [List.filter_cons, hkeep]
      · have hne : c.1 ≠ v.1 := by
          intro he
          exact hnd.1 (he ▸ List.mem_map_of_mem Prod.fst hv')
        have hlen := ih hnd.2 hv'
        have hpos : 0 < t.length := List.length_pos.mpr (List.ne_nil_of_mem hv')
        have hb : (! (c.1 == v.1)) = true := by simp [hne]
        rw [List.filter_cons, if_pos hb, List.length_cons, hlen, List.length_cons]
        omega

theorem lookup_eraseP_key {α : Type _} {β : Type _} [BEq α] [LawfulBEq α]
    {l : List (α × β)} {k : α} (hnd : (l.map Prod.fst).Nodup) :
    (l.eraseP (fun kv => kv.1 == k)).lookup k = none := by
  induction l with
  | nil => simp [List.lookup]
  | cons c t ih =>
      rw [List.map_cons, List.nodup_cons] at hnd
      rw [List.eraseP_cons]
      by_cases hc : c.1 == k
      · obtain he : c.1 = k := by simpa using hc
        simp only [hc, cond_true]
        apply lookup_eq_none_iff.mpr
        exact he ▸ hnd.1
      · simp only [Bool.not_eq_true] at hc
        simp only [hc, cond_false]
        rw [List.lookup_cons]
        have : (k == c.1) = false := by
          refine beq_false_of_ne ?_
          intro he
          exact absurd (beq_iff_eq.mpr he.symm) (by simp [hc])
        simp only [this]
        exact ih hnd.2

/-! ## C1: the admission permit is balanced on every exit path -/

/-- C1. Every `process_dialogue` invocation releases the admission
permit exactly as many times as it acquired it — the pool's available
capacity after the run equals its pre-run value — and it never acquires
more than once, for every outcome: success, every `OrchestratorError`,
and an uncaught fault. In particular a run that acquired the permit
releases it exactly once. -/
theorem processDialogue_semaphore_balanced (cfg : OrchestratorConfig)
    (env : PipelineEnv) (audioData : List Nat) (filename : String) :
    (processDialogue cfg env audioData filename).semReleased
        = (processDialogue cfg env audioData filename).semAcquired
      ∧ (processDialogue cfg env audioData filename).semAcquired ≤ 1 := by
  unfold processDialogue
  repeat' split
  all_goals simp

/-! ## C7: overall status aggregation -/

/-- C7. The overall status computed by `get_status` agrees with the
specification's aggregation rule on every combination of the three
subsystem health values: `healthy` exactly when all three are healthy,
`unhealthy` whenever at least one is unhealthy, `degraded` otherwise. -/
theorem overallStatus_eq_spec (stt llm tts : HealthStatus) :
    overallStatus stt llm tts = overallStatusSpec stt llm tts := by
  cases stt <;> cases llm <;> cases tts <;> rfl

/-! ## C4: `add_message` trimming keeps the newest suffix in order -/

theorem trim_if_eq_drop {α : Type _} (l : List α) (maxM : Nat) :
    (if l.length > maxM then l.drop (l.length - maxM) else l)
      = l.drop (l.length - maxM) := by
  split
  · rfl
  · rw [Nat.sub_eq_zero_of_le (Nat.le_of_not_lt (by assumption)), List.drop_zero]

theorem drop_bound_append {α : Type _} (x L : List α) (n : Nat) :
    ((x.drop (x.length - n)) ++ L).drop
        (((x.drop (x.length - n)) ++ L).length - n)
      = (x ++ L).drop ((x ++ L).length - n) := by
  have h1 : x.drop (x.length - n) ++ L = (x ++ L).drop (x.length - n) :=
    (List.drop_append_of_le_length (Nat.sub_le _ _)).symm
  rw [h1, List.drop_drop]
  congr 1
  simp only [List.length_drop, List.length_append]
  omega

theorem entryExpired_now_false (ttl : Nat) (now ca : Int) (id : String)
    (ms : List (String × String)) :
    entryExpired ttl now (id, ⟨id, ms, ca, now⟩) = false := by
  simp only [entryExpired]
  rw [decide_eq_false_iff_not]
  omega

theorem addMessage_singleton (maxM maxC ttl : Nat) (now ca : Int)
    (id role content : String) (ms : List (String × String)) :
    addMessage ⟨maxM, maxC, ttl, [(id, ⟨id, ms, ca, now⟩)]⟩ now id role content
      = (⟨id, (ms ++ [(role, content)]).drop ((ms ++ [(role, content)]).length - maxM),
            ca, now⟩,
         ⟨maxM, maxC, ttl,
          [(id, ⟨id, (ms ++ [(role, content)]).drop
              ((ms ++ [(role, content)]).length - maxM), ca, now⟩)]⟩) := by
  unfold addMessage getOrCreate cleanupExpired assocUpdate
  simp [entryExpired_now_false, List.lookup_cons, trim_if_eq_drop]
  intro h
  rw [Nat.sub_eq_zero_of_le h, List.drop_zero]

theorem addMessages_singleton (maxM maxC ttl : Nat) (now ca : Int) (id : String)
    (L : List (String × String)) :
    ∀ ms : List (String × String), ms.length ≤ maxM →
    addMessages ⟨maxM, maxC, ttl, [(id, ⟨id, ms, ca, now⟩)]⟩ now id L
      = ⟨maxM, maxC, ttl,
          [(id, ⟨id, (ms ++ L).drop ((ms ++ L).length - maxM), ca, now⟩)]⟩ := by
  induction L with
  | nil =>
      intro ms hms
      rw [addMessages]
      simp [Nat.sub_eq_zero_of_le hms]
  | cons m L ih =>
      intro ms hms
      obtain ⟨role, content⟩ := m
      rw [addMessages, addMessage_singleton]
      have hlen : ((ms ++ [(role, content)]).drop
          ((ms ++ [(role, content)]).length - maxM)).length ≤ maxM := by
        simp only [List.length_drop, List.length_append, List.length_cons,
          List.length_nil]
        omega
      rw [ih _ hlen]
      have hd := drop_bound_append (α := String × String) (ms ++ [(role, content)]) L maxM
      rw [List.append_assoc, List.singleton_append] at hd
      rw [hd]

theorem addMessage_empty (maxM maxC ttl : Nat) (now : Int)
    (id role content : String) :
    (addMessage ⟨maxM, maxC, ttl, []⟩ now id role content).2
      = ⟨maxM, maxC, ttl,
          [(id, ⟨id, [(role, content)].drop (1 - maxM), now, now⟩)]⟩ := by
  unfold addMessage getOrCreate cleanupExpired evictOldestIfNeeded assocUpdate
  simp [List.lookup, trim_if_eq_drop]
  intro h
  rw [Nat.sub_eq_zero_of_le (by omega : 1 ≤ maxM), List.drop_zero]

/-- C4. Folding any sequence of `add_message` calls for one conversation
over a fresh cache leaves exactly the most recently appended
`max_messages` messages, in their original append order (for an empty
sequence the conversation does not exist); in particular the message
list never exceeds `max_messages`. -/
theorem addMessage_keeps_newest_suffix (maxM maxC ttl : Nat) (now : Int)
    (id : String) (L : List (String × String)) :
    (addMessages ⟨maxM, maxC, ttl, []⟩ now id L).entries.lookup id
        = (if L = [] then none
           else some ⟨id, L.drop (L.length - maxM), now, now⟩)
      ∧ (L.drop (L.length - maxM)).length ≤ maxM := by
  constructor
  · cases L with
    | nil => rw [addMessages]; simp [List.lookup]
    | cons m L =>
        obtain ⟨role, content⟩ := m
        rw [addMessages, addMessage_empty]
        have hlen : ([(role, content)].drop (1 - maxM)).length ≤ maxM := by
          simp only [List.length_drop, List.length_cons, List.length_nil]
          omega
        rw [addMessages_singleton _ _ _ _ _ _ _ _ hlen]
        have hd := drop_bound_append (α := String × String) [(role, content)] L maxM
        rw [List.singleton_append] at hd
        simp only [List.length_cons, List.length_nil, Nat.zero_add,
          List.length_append, List.length_drop] at hd ⊢
        simp [List.lookup_cons, hd]
  · simp only [List.length_drop]
    omega

/-! ## C6: lazy TTL expiry on access -/

theorem cleanup_lookup_none (c : ConversationCache) (now : Int) (id : String)
    (conv : Conversation)
    (hnd : (c.entries.map Prod.fst).Nodup)
    (hfound : c.entries.lookup id = some conv)
    (hexp : now - conv.updatedAt > (c.ttl : Int)) :
    (cleanupExpired c now).entries.lookup id = none := by
  apply lookup_eq_none_iff.mpr
  intro hmem
  obtain ⟨kv, hkvmem, hkvfst⟩ := List.mem_map.mp hmem
  have hkv_in : kv ∈ c.entries := (List.mem_filter.mp hkvmem).1
  have hpred := (List.mem_filter.mp hkvmem).2
  have hconv_in : (id, conv) ∈ c.entries := lookup_mem hfound
  have hkv_eq : kv = (id, conv) :=
    eq_of_mem_of_keysNodup hnd hkv_in hconv_in (by simpa using hkvfst)
  rw [hkv_eq] at hpred
  simp only [entryExpired, Bool.not_eq_true', decide_eq_false_iff_not] at hpred
  exact hpred hexp

/-- C6. A conversation whose `updated_at` is older than `now − ttl` is
unreachable on the very next access: `get_or_create` for its id returns
a fresh empty record — never the stale one — and `count` no longer
includes the expired conversation. -/
theorem getOrCreate_expired_returns_fresh (c : ConversationCache) (now : Int)
    (id : String) (conv : Conversation)
    (hnd : (c.entries.map Prod.fst).Nodup)
    (hfound : c.entries.lookup id = some conv)
    (hexp : now - conv.updatedAt > (c.ttl : Int)) :
    (getOrCreate c now id).1 = ⟨id, [], now, now⟩
      ∧ (getOrCreate c now id).1 ≠ conv
      ∧ (cacheCount c now).1 < c.entries.length := by
  have hnone := cleanup_lookup_none c now id conv hnd hfound hexp
  have hfst : (getOrCreate c now id).1 = ⟨id, [], now, now⟩ := by
    unfold getOrCreate
    simp only [hnone]
  refine ⟨hfst, ?_, ?_⟩
  · rw [hfst]
    intro he
    have hupd : conv.updatedAt = now := by rw [← he]
    rw [hupd] at hexp
    omega
  · have hin : (id, conv) ∈ c.entries := lookup_mem hfound
    unfold cacheCount cleanupExpired
    apply List.length_filter_lt_length_iff_exists.mpr
    refine ⟨(id, conv), hin, ?_⟩
    simp [entryExpired, hexp]

/-! ## C5: capacity eviction removes the least-recently-updated entry -/

theorem byUpdatedAt_trans (a b c : String × Conversation)
    (hab : byUpdatedAt a b = true) (hbc : byUpdatedAt b c = true) :
    byUpdatedAt a c = true := by
  simp only [byUpdatedAt, decide_eq_true_eq] at *
  omega

theorem byUpdatedAt_total (a b : String × Conversation) :
    (byUpdatedAt a b || byUpdatedAt b a) = true := by
  simp only [byUpdatedAt, Bool.or_eq_true, decide_eq_true_eq]
  omega

theorem evict_at_capacity (c : ConversationCache)
    (v : String × Conversation) (rest : List (String × Conversation))
    (hs : c.entries.mergeSort byUpdatedAt = v :: rest)
    (hfull : c.entries.length = c.maxConversations) :
    evictOldestIfNeeded c
      = { c with entries := c.entries.filter (fun kv => ! (kv.1 == v.1)) } := by
  unfold evictOldestIfNeeded
  rw [if_pos (by omega)]
  have ht : c.entries.length - c.maxConversations + 1 = 1 := by omega
  simp only [hs, ht, List.take_succ_cons, List.take_zero, List.map_cons,
    List.map_nil]
  congr 1
  apply List.filter_congr
  intro x hx
  by_cases he : x.1 = v.1 <;> simp [he, List.contains_cons]

/-- C5 (amended: `max_conversations ≥ 1`). Inserting a distinct new id
into a cache that is exactly at capacity, all entries unexpired, evicts
exactly one existing conversation — one whose `updated_at` is no more
recent than that of any retained entry — keeps every other entry, and
afterwards the cache again holds `max_conversations` entries including
the new one. -/
theorem getOrCreate_at_capacity_evicts_lru (c : ConversationCache) (now : Int)
    (newId : String)
    (hnd : (c.entries.map Prod.fst).Nodup)
    (hcap : 0 < c.maxConversations)
    (hfull : c.entries.length = c.maxConversations)
    (hlive : ∀ kv ∈ c.entries, entryExpired c.ttl now kv = false)
    (hfresh : c.entries.lookup newId = none) :
    ((getOrCreate c now newId).2).entries.length = c.maxConversations
      ∧ ((getOrCreate c now newId).2).entries.lookup newId
          = some ⟨newId, [], now, now⟩
      ∧ ∃ victim ∈ c.entries,
          victim ∉ ((getOrCreate c now newId).2).entries
          ∧ ∀ kv ∈ c.entries, kv ≠ victim →
              kv ∈ ((getOrCreate c now newId).2).entries
              ∧ victim.2.updatedAt ≤ kv.2.updatedAt := by
  -- Cleanup is the identity: every entry is live.
  have hclean : cleanupExpired c now = c := by
    unfold cleanupExpired
    have : c.entries.filter (fun kv => ! entryExpired c.ttl now kv) = c.entries :=
      List.filter_eq_self.mpr (fun kv hkv => by simp [hlive kv hkv])
    simp [this]
  -- The sorted entry list is nonempty; name its head.
  obtain ⟨v, rest, hs⟩ :
      ∃ v rest, c.entries.mergeSort byUpdatedAt = v :: rest := by
    cases hsort : c.entries.mergeSort byUpdatedAt with
    | nil =>
        exfalso
        have hlen := (List.mergeSort_perm c.entries byUpdatedAt).length_eq
        rw [hsort] at hlen
        simp at hlen
        omega
    | cons v rest => exact ⟨v, rest, rfl⟩
  have hperm : (v :: rest).Perm c.entries := by
    rw [← hs]; exact List.mergeSort_perm c.entries byUpdatedAt
  have hv_mem : v ∈ c.entries :=
    hperm.mem_iff.mp (List.mem_cons_self _ _)
  -- The head of the sort is minimal for `updated_at`.
  have hmin : ∀ kv ∈ c.entries, kv ≠ v → v.2.updatedAt ≤ kv.2.updatedAt := by
    intro kv hkv hne
    have hpair := List.sorted_mergeSort byUpdatedAt_trans byUpdatedAt_total c.entries
    rw [hs, List.pairwise_cons] at hpair
    have hkv' : kv ∈ v :: rest := hperm.mem_iff.mpr hkv
    rcases List.mem_cons.mp hkv' with rfl | hrest
    · exact absurd rfl hne
    · have := hpair.1 kv hrest
      simpa [byUpdatedAt] using this
  -- Shape of the cache returned by `get_or_create`.
  have hevict := evict_at_capacity c v rest hs hfull
  have hget2 : (getOrCreate c now newId).2
      = { c with entries :=
            c.entries.filter (fun kv => ! (kv.1 == v.1))
              ++ [(newId, ⟨newId, [], now, now⟩)] } := by
    unfold getOrCreate
    simp only [hclean, hfresh, hevict]
  have hnewKey : newId ∉ c.entries.map Prod.fst := lookup_eq_none_iff.mp hfresh
  have hfiltered_none :
      (c.entries.filter (fun kv => ! (kv.1 == v.1))).lookup newId = none := by
    apply lookup_eq_none_iff.mpr
    intro hmem
    obtain ⟨kv, hkvmem, hkvfst⟩ := List.mem_map.mp hmem
    exact hnewKey (hkvfst ▸
      List.mem_map_of_mem Prod.fst (List.mem_filter.mp hkvmem).1)
  refine ⟨?_, ?_, ?_⟩
  · rw [hget2]
    simp only [List.length_append, List.length_cons, List.length_nil]
    rw [length_filter_out_key hnd hv_mem]
    omega
  · rw [hget2]
    simp only
    rw [lookup_append_left_none hfiltered_none, List.lookup_cons]
    simp
  · refine ⟨v, hv_mem, ?_, ?_⟩
    · rw [hget2]
      simp only [List.mem_append]
      rintro (hmem | hmem)
      · have := (List.mem_filter.mp hmem).2
        simp at this
      · have hv_key : v.1 ∈ c.entries.map Prod.fst :=
          List.mem_map_of_mem Prod.fst hv_mem
        have : v = (newId, ⟨newId, [], now, now⟩) := by simpa using hmem
        rw [this] at hv_key
        exact hnewKey hv_key
    · intro kv hkv hne
      refine ⟨?_, hmin kv hkv hne⟩
      rw [hget2]
      simp only [List.mem_append]
      left
      apply List.mem_filter.mpr
      refine ⟨hkv, ?_⟩
      have hkey_ne : kv.1 ≠ v.1 := by
        intro he
        exact hne (eq_of_mem_of_keysNodup hnd hkv hv_mem he)
      simpa using hkey_ne

/-- C5 counterexample. With `max_conversations = 0` the cache holds
`max_conversations` (zero) unexpired entries and `"a"` is a distinct new
id, yet after `get_or_create` the cache holds one entry — more than
`max_conversations` — because the eviction loop can free no slot and the
insertion happens regardless. -/
theorem getOrCreate_capacity_zero_exceeds_bound :
    capacityZeroCache.entries.length = capacityZeroCache.maxConversations
      ∧ capacityZeroCache.entries.lookup "a" = none
      ∧ ((getOrCreate capacityZeroCache 0 "a").2).entries.length
          > capacityZeroCache.maxConversations := by
  exact ⟨by decide, by decide, by decide⟩

/-- Witness for C5's amended statement at a concrete two-entry cache at
capacity, where `"b"` is the least-recently-updated conversation. -/
theorem getOrCreate_at_capacity_evicts_lru_witness :
    ((getOrCreate fullCache 5 "c").2).entries.length
        = fullCache.maxConversations
      ∧ ((getOrCreate fullCache 5 "c").2).entries.lookup "c"
          = some ⟨"c", [], 5, 5⟩
      ∧ ∃ victim ∈ fullCache.entries,
          victim ∉ ((getOrCreate fullCache 5 "c").2).entries
          ∧ ∀ kv ∈ fullCache.entries, kv ≠ victim →
              kv ∈ ((getOrCreate fullCache 5 "c").2).entries
              ∧ victim.2.updatedAt ≤ kv.2.updatedAt :=
  getOrCreate_at_capacity_evicts_lru fullCache 5 "c" (by decide) (by decide)
    (by decide) (by decide) (by decide)

/-- Witness for C6 at a concrete cache: the only conversation was last
updated at instant 0, the TTL is 60, and the access happens at 61. -/
theorem getOrCreate_expired_returns_fresh_witness :
    (getOrCreate staleCache 61 "x").1 = ⟨"x", [], 61, 61⟩
      ∧ (getOrCreate staleCache 61 "x").1 ≠ ⟨"x", [("user", "hi")], 0, 0⟩
      ∧ (cacheCount staleCache 61).1 < staleCache.entries.length :=
  getOrCreate_expired_returns_fresh staleCache 61 "x"
    ⟨"x", [("user", "hi")], 0, 0⟩ (by decide) (by decide) (by decide)

/-! ## C2 and C8: faults crossing the generation-stage boundary -/

theorem dropWhile_ws_replicate_a (n : Nat) :
    List.dropWhile Char.isWhitespace (List.replicate n 'a')
      = List.replicate n 'a' := by
  cases n with
  | zero => rfl
  | succ n =>
      rw [List.replicate_succ, List.dropWhile_cons, if_neg (by decide),
        ← List.replicate_succ]

theorem pyStrip_replicate_a (n : Nat) :
    pyStrip ⟨List.replicate n 'a'⟩ = ⟨List.replicate n 'a'⟩ := by
  unfold pyStrip
  congr 1
  show ((List.dropWhile Char.isWhitespace (List.replicate n 'a')).reverse.dropWhile
      Char.isWhitespace).reverse = List.replicate n 'a'
  rw [dropWhile_ws_replicate_a, List.reverse_replicate, dropWhile_ws_replicate_a,
    List.reverse_replicate]

theorem overLongText_length : overLongText.length = 4001 := by
  show (List.replicate 4001 'a').length = 4001
  rw [List.length_replicate]

theorem overLongText_ne_empty : overLongText ≠ "" := by
  intro h
  have : overLongText.length = 0 := by rw [h]; rfl
  rw [overLongText_length] at this
  exact absurd this (by decide)

theorem pyStrip_overLongText : pyStrip overLongText = overLongText :=
  pyStrip_replicate_a 4001

/-- If the run reaches the generation stage and `generate_response`
raises a `ValueError` — which its input validation does for an over-long
message — then `process_dialogue` surfaces that raw `ValueError`: the
generation stage's handler catches only `RuntimeError`. -/
theorem generator_valueError_escapes (cfg : OrchestratorConfig)
    (env : PipelineEnv) (audioData : List Nat) (filename : String)
    (r : SttResult) (vmsg : String)
    (hfmt : (validateAudioFormat filename audioData).1 = true)
    (hstt : env.sttModelLoaded = true)
    (hllm : env.llm.apiConfigured = true)
    (htts : env.ttsIsReady = true)
    (hsem : env.semaphoreAcquireOk = true)
    (hok : env.sttOutcome = .ok r)
    (hne : pyStrip r.text ≠ "")
    (hdur : validateAudioDuration cfg r.durationSeconds = none)
    (hgen : generateResponse env.llm env.llmOutcome env.now (pyStrip r.text)
        env.conversationId = .error (.valueError vmsg)) :
    (processDialogue cfg env audioData filename).result
      = .pythonRaise (.valueError vmsg) := by
  unfold processDialogue
  rw [if_neg (by simp [hfmt]), if_neg (by simp [hstt]), if_neg (by simp [hllm]),
    if_neg (by simp [htts]), if_neg (by simp [hsem])]
  unfold pipelineBody
  rw [hok]
  have hbeq : (pyStrip r.text == "") = false := by simp [hne]
  simp only [hbeq, hdur, hgen, Bool.false_eq_true, if_false]

/-- `generate_response` raises `ValueError MESSAGE_TOO_LONG` whenever its
(nonempty, pre-stripped) input message exceeds `MAX_MESSAGE_LENGTH`. -/
theorem generateResponse_too_long (st : LLMState) (o : OpenAIOutcome) (now : Int)
    (message conversationId : String)
    (hapi : st.apiConfigured = true)
    (hne : message ≠ "")
    (hstrip : pyStrip message = message)
    (hlong : message.length > MAX_MESSAGE_LENGTH) :
    generateResponse st o now message conversationId
      = .error (.valueError "MESSAGE_TOO_LONG") := by
  unfold generateResponse
  rw [if_neg (by simp [hapi]), if_neg (by simp [hstrip, hne]), if_pos hlong]

/-- C2 (code bug). A run in which every collaborator behaves and the
transcription is 4001 characters long: `generate_response` raises
`ValueError("MESSAGE_TOO_LONG")`, the generation stage catches only
`RuntimeError`, and the raw `ValueError` crosses the coordinator
boundary instead of any `OrchestratorError`. -/
theorem processDialogue_leaks_valueError :
    (processDialogue testConfig envOverLong [1] "a.wav").result
      = .pythonRaise (.valueError "MESSAGE_TOO_LONG") := by
  refine generator_valueError_escapes testConfig envOverLong [1] "a.wav"
      ⟨overLongText, 5⟩ "MESSAGE_TOO_LONG" (by decide) rfl rfl rfl rfl rfl
      ?_ (by decide) ?_
  · show pyStrip overLongText ≠ ""
    rw [pyStrip_overLongText]
    exact overLongText_ne_empty
  · show generateResponse baseLLM (.success "ok") 0 (pyStrip overLongText) "cid"
        = .error (.valueError "MESSAGE_TOO_LONG")
    rw [pyStrip_overLongText]
    exact generateResponse_too_long baseLLM (.success "ok") 0 overLongText "cid"
      rfl overLongText_ne_empty pyStrip_overLongText
      (by rw [overLongText_length]; decide)

/-- C8 (code bug). The generation-stage fault mapping is not total: a
generator fault carried by a `ValueError` (over-long message) is
re-raised raw instead of being mapped to `LLM_SERVICE_UNAVAILABLE`. -/
theorem generation_stage_mapping_not_total :
    (processDialogue testConfig envOverLong [2, 3] "b.mp3").result
        = .pythonRaise (.valueError "MESSAGE_TOO_LONG")
      ∧ (RunResult.pythonRaise (.valueError "MESSAGE_TOO_LONG"))
          ≠ .orchError ⟨.LLM_SERVICE_UNAVAILABLE,
              "LLM processing failed: MESSAGE_TOO_LONG", none, []⟩ := by
  constructor
  · refine generator_valueError_escapes testConfig envOverLong [2, 3] "b.mp3"
        ⟨overLongText, 5⟩ "MESSAGE_TOO_LONG" (by decide) rfl rfl rfl rfl rfl
        ?_ (by decide) ?_
    · show pyStrip overLongText ≠ ""
      rw [pyStrip_overLongText]
      exact overLongText_ne_empty
    · show generateResponse baseLLM (.success "ok") 0 (pyStrip overLongText) "cid"
          = .error (.valueError "MESSAGE_TOO_LONG")
      rw [pyStrip_overLongText]
      exact generateResponse_too_long baseLLM (.success "ok") 0 overLongText "cid"
        rfl overLongText_ne_empty pyStrip_overLongText
        (by rw [overLongText_length]; decide)
  · decide

/-! ## C3: synthesis-stage fault mapping -/

/-- C3 counterexample. A generic (non-`ValueError`) synthesizer fault is
mapped to `TTS_SERVICE_UNAVAILABLE`, not to `SYNTHESIS_FAILED` as the
claim states. -/
theorem synthesis_generic_fault_not_synthesisFailed :
    (processDialogue testConfig envTtsCrash [1] "a.wav").result
        = .orchError ⟨.TTS_SERVICE_UNAVAILABLE,
            "TTS processing failed: model crashed", none, []⟩
      ∧ OrchestratorErrorCode.TTS_SERVICE_UNAVAILABLE
          ≠ OrchestratorErrorCode.SYNTHESIS_FAILED := by
  exact ⟨by decide, by decide⟩

/-- C3 (amended). When the run reaches the synthesis stage and the
synthesizer faults: a content-validation failure (`ValueError`) maps to
`SYNTHESIS_FAILED` with the underlying detail in the message, while any
other synthesis fault maps to `TTS_SERVICE_UNAVAILABLE`, also carrying
the detail in its message. -/
theorem synthesis_fault_mapping (cfg : OrchestratorConfig) (env : PipelineEnv)
    (audioData : List Nat) (filename : String) (r : SttResult)
    (responseText : String) (llm1 : LLMState) (e : PyExc)
    (hfmt : (validateAudioFormat filename audioData).1 = true)
    (hstt : env.sttModelLoaded = true)
    (hllm : env.llm.apiConfigured = true)
    (htts : env.ttsIsReady = true)
    (hsem : env.semaphoreAcquireOk = true)
    (hok : env.sttOutcome = .ok r)
    (hne : pyStrip r.text ≠ "")
    (hdur : validateAudioDuration cfg r.durationSeconds = none)
    (hgen : generateResponse env.llm env.llmOutcome env.now (pyStrip r.text)
        env.conversationId = .ok (responseText, llm1))
    (httse : env.ttsOutcome = .error e) :
    (processDialogue cfg env audioData filename).result
      = .orchError (match e with
          | .valueError m =>
              ⟨.SYNTHESIS_FAILED, "Speech synthesis failed: " ++ m, none, []⟩
          | e =>
              ⟨.TTS_SERVICE_UNAVAILABLE, "TTS processing failed: " ++ e.msg,
                none, []⟩) := by
  unfold processDialogue
  rw [if_neg (by simp [hfmt]), if_neg (by simp [hstt]), if_neg (by simp [hllm]),
    if_neg (by simp [htts]), if_neg (by simp [hsem])]
  unfold pipelineBody
  rw [hok]
  have hbeq : (pyStrip r.text == "") = false := by simp [hne]
  cases e with
  | valueError m =>
      simp only [hbeq, hdur, hgen, httse, Bool.false_eq_true, if_false]
  | runtimeError m =>
      simp only [hbeq, hdur, hgen, httse, Bool.false_eq_true, if_false, PyExc.msg]
  | otherExc m =>
      simp only [hbeq, hdur, hgen, httse, Bool.false_eq_true, if_false, PyExc.msg]

/-- Witness for C3's amended mapping: a concrete run where the
synthesizer rejects the content with a `ValueError`. -/
theorem synthesis_fault_mapping_witness :
    (processDialogue testConfig envTtsReject [1] "a.wav").result
      = .orchError ⟨.SYNTHESIS_FAILED,
          "Speech synthesis failed: Text is empty or whitespace only",
          none, []⟩ :=
  synthesis_fault_mapping testConfig envTtsReject [1] "a.wav" ⟨"hello", 5⟩
    "ok" llmAfterHello (.valueError "Text is empty or whitespace only")
    (by decide) rfl rfl rfl rfl rfl (by decide) (by decide) rfl rfl

/-! ## C9: disconnect is idempotent -/

theorem disconnect_eq (m : ConnectionManager) (sid : String) :
    disconnect m sid
      = (⟨(if (m.connections.lookup sid).isSome then
              m.connections.eraseP (fun kv : String × Nat => kv.1 == sid)
            else m.connections),
          (match m.pingTasks.lookup sid with
           | some _ => m.pingTasks.eraseP (fun kv : String × Nat => kv.1 == sid)
           | none => m.pingTasks)⟩,
         (m.pingTasks.lookup sid).toList) := by
  unfold disconnect
  cases m.pingTasks.lookup sid <;> rfl

theorem disconnect_not_present (m : ConnectionManager) (sid : String)
    (hc : m.connections.lookup sid = none)
    (hp : m.pingTasks.lookup sid = none) :
    disconnect m sid = (m, []) := by
  rw [disconnect_eq, hc, hp]
  rfl

/-- C9. `disconnect` never faults (it is total), removes the session
from both the connection registry and the heartbeat-task map, cancels
exactly the session's running heartbeat task (none when none is
running), and a second `disconnect` in a row is a no-op: it returns the
state unchanged and cancels nothing — the same holds for an id that was
never registered. -/
theorem disconnect_idempotent_spec (m : ConnectionManager) (sid : String)
    (h : m.WF) :
    disconnect (disconnect m sid).1 sid = ((disconnect m sid).1, [])
      ∧ ((disconnect m sid).1).connections.lookup sid = none
      ∧ ((disconnect m sid).1).pingTasks.lookup sid = none
      ∧ (disconnect m sid).2 = (m.pingTasks.lookup sid).toList := by
  obtain ⟨hc, hp⟩ := h
  have hconn : ((disconnect m sid).1).connections.lookup sid = none := by
    simp only [disconnect_eq]
    by_cases hx : (m.connections.lookup sid).isSome
    · rw [if_pos hx]
      exact lookup_eraseP_key hc
    · rw [if_neg hx]
      exact Option.not_isSome_iff_eq_none.mp hx
  have hping : ((disconnect m sid).1).pingTasks.lookup sid = none := by
    simp only [disconnect_eq]
    cases hx : m.pingTasks.lookup sid with
    | none => exact hx
    | some t => exact lookup_eraseP_key hp
  exact ⟨disconnect_not_present _ _ hconn hping, hconn, hping,
    by simp only [disconnect_eq]⟩

/-- Witness for C9 at a concrete manager: a registered session with a
running heartbeat, disconnected twice. -/
theorem disconnect_idempotent_witness :
    disconnect (disconnect sampleManager "s1").1 "s1"
        = ((disconnect sampleManager "s1").1, [])
      ∧ ((disconnect sampleManager "s1").1).connections.lookup "s1" = none
      ∧ ((disconnect sampleManager "s1").1).pingTasks.lookup "s1" = none
      ∧ (disconnect sampleManager "s1").2
          = (sampleManager.pingTasks.lookup "s1").toList :=
  disconnect_idempotent_spec sampleManager "s1" (by decide)

/-! ## C10: send to an unknown session -/

/-- C10. `send_message` for a session id not in the registry returns
`False` having performed no transport write, torn down nothing, and
changed neither the connection registry nor the heartbeat-task map. -/
theorem sendMessage_unknown_session (m : ConnectionManager) (sid : String)
    (payload : String) (transportOk : Bool)
    (h : m.connections.lookup sid = none) :
    sendMessage m sid payload transportOk = ⟨false, m, []⟩ := by
  unfold sendMessage
  rw [h]

/-- Witness for C10: sending to an id that was never registered. -/
theorem sendMessage_unknown_session_witness :
    sendMessage sampleManager "s2" "ping" true = ⟨false, sampleManager, []⟩ :=
  sendMessage_unknown_session sampleManager "s2" "ping" true (by decide)

end VoiceBackend
